import Mathlib

/-!
Shallow embedding of the request-construction and response-normalization
adapters of the opal-custom-tools-paas repository
(`src/tools/cms-content-types.ts`, function `cmsContentDelivery`, and
`src/tools/cms-content-manifest.ts`, function `cmsContentManifest`).

JavaScript strings are modelled as Lean `String`, optional parameters as
`Option`, JavaScript truthiness tests as explicit `strTruthy` / `numTruthy`,
thrown errors as `Except.error`, and the platform `fetch` as an oracle input
of type `Except String RawResponse` (error = transport failure message).
Each adapter additionally returns the number of fetch calls it performed.
-/

namespace OpalCms

/-- Truthiness of a JS `string | undefined` value: `undefined` and the empty
string are falsy, every other string is truthy. -/
def strTruthy : Option String → Bool
  | none => false
  | some s => !(s == "")

/-- Truthiness of a JS `number | undefined` value restricted to integers:
`undefined` and `0` are falsy. -/
def numTruthy : Option Int → Bool
  | none => false
  | some n => !(n == 0)

/-- Model of `s.endsWith('/')`: the last UTF-16 unit / character is a slash. -/
def endsWithSlash (s : String) : Bool :=
  s.data.getLast? == some '/'

/-- Model of `cmsUrl.endsWith('/') ? cmsUrl.slice(0, -1) : cmsUrl`:
strip exactly one trailing slash when present. -/
def stripTrailingSlash (s : String) : String :=
  if s.data.getLast? = some '/' then String.mk s.data.dropLast else s

/-- `sub` occurs contiguously in `l`. -/
def charsInfix (sub : List Char) : List Char → Bool
  | [] => sub.isEmpty
  | c :: rest => sub.isPrefixOf (c :: rest) || charsInfix sub rest

/-- Model of JS `s.includes(sub)`: `sub` occurs contiguously in `s`. -/
def strIncludes (s sub : String) : Bool :=
  charsInfix sub.data s.data

/-- Model of JS `s.startsWith(sub)`. -/
def strStartsWith (s sub : String) : Bool :=
  sub.data.isPrefixOf s.data

/-- Decimal digits of a natural number, most significant first, accumulated
onto `acc`. The first argument is recursion fuel; any fuel of at least
`n + 1` is enough, so the `0` case is never reached from `natToDec`. -/
def natToDecAux : Nat → Nat → List Char → List Char
  | 0, _, acc => acc
  | fuel + 1, n, acc =>
    let d := Char.ofNat (48 + n % 10)
    if n < 10 then d :: acc else natToDecAux fuel (n / 10) (d :: acc)

/-- Decimal digits of a natural number, most significant first. -/
def natToDec (n : Nat) : List Char :=
  natToDecAux (n + 1) n []

/-- Model of the JS number-to-string conversion `${top}` for integer values:
standard decimal notation, with a leading minus sign when negative. -/
def intToDec (t : Int) : String :=
  match t with
  | Int.ofNat n => String.mk (natToDec n)
  | Int.negSucc m => String.mk ('-' :: natToDec (m + 1))

/-- Characters that `encodeURIComponent` leaves unescaped:
`A-Z a-z 0-9 - _ . ! ~ * ' ( )`. -/
def isUnreservedChar (c : Char) : Bool :=
  (65 ≤ c.toNat && c.toNat ≤ 90) ||
  (97 ≤ c.toNat && c.toNat ≤ 122) ||
  (48 ≤ c.toNat && c.toNat ≤ 57) ||
  c == '-' || c == '_' || c == '.' || c == '!' || c == '~' ||
  c == '*' || c == Char.ofNat 39 || c == '(' || c == ')'

/-- Upper-case hexadecimal digit for a value below 16. -/
def hexDigit (n : Nat) : Char :=
  if n < 10 then Char.ofNat (48 + n) else Char.ofNat (55 + n)

/-- Percent-escape of one byte: `%XY` with upper-case hex digits. -/
def percentByte (b : Nat) : List Char :=
  ['%', hexDigit (b / 16), hexDigit (b % 16)]

/-- UTF-8 bytes of a Unicode scalar value. -/
def utf8Bytes (c : Char) : List Nat :=
  let n := c.toNat
  if n < 128 then [n]
  else if n < 2048 then [192 + n / 64, 128 + n % 64]
  else if n < 65536 then [224 + n / 4096, 128 + (n / 64) % 64, 128 + n % 64]
  else [240 + n / 262144, 128 + (n / 4096) % 64, 128 + (n / 64) % 64, 128 + n % 64]

/-- Encoding of one character under `encodeURIComponent`: unreserved
characters pass through, all others are UTF-8 percent-escaped. -/
def encodeChar (c : Char) : List Char :=
  if isUnreservedChar c then [c] else (utf8Bytes c).map percentByte |>.flatten

/-- Model of the platform `encodeURIComponent`. -/
def encodeURIComponent (s : String) : String :=
  String.mk ((s.data.map encodeChar).flatten)

/-- JSON values, as produced by the platform `JSON.parse`. -/
inductive JsonVal where
  | null : JsonVal
  | bool (b : Bool) : JsonVal
  | num (n : Int) : JsonVal
  | str (s : String) : JsonVal
  | arr (elems : List JsonVal) : JsonVal
  | obj (fields : List (String × JsonVal)) : JsonVal

/-- A decoded response body: either a parsed JSON structure or raw text. -/
inductive Body where
  | json (j : JsonVal) : Body
  | text (s : String) : Body

/-- The raw transport result of a completed `fetch` call. `headers` is the
header list in the iteration order of `response.headers.forEach`; `textBody`
is the result of `response.text()`; `jsonBody` is the outcome of
`response.json()` — `some` the parsed value on parse success, `none` when the
body is not syntactically valid JSON (the call throws). -/
structure RawResponse where
  status : Nat
  statusText : String
  headers : List (String × String)
  textBody : String
  jsonBody : Option JsonVal

/-- The normalized envelope returned to the caller. `data`, `error` and
`headers` are `none` when the corresponding field is absent from the
returned object. -/
structure ResponseEnvelope where
  success : Bool
  status : Nat
  statusText : String
  url : String
  data : Option Body := none
  error : Option Body := none
  headers : Option (List (String × String)) := none

/-- Model of `response.headers.get(name)`: case-insensitive lookup. -/
def headersGet (hs : List (String × String)) (name : String) : Option String :=
  (hs.find? (fun p => p.1.toLower == name.toLower)).map (fun p => p.2)

/-- One step of `responseHeaders[key] = value` on a JS object modelled as an
association list: updating an existing key overwrites its value in place,
a new key is appended. -/
def setHeader (m : List (String × String)) (k v : String) : List (String × String) :=
  if m.any (fun p => p.1 == k) then
    m.map (fun p => if p.1 == k then (p.1, v) else p)
  else m ++ [(k, v)]

/-- Model of the `response.headers.forEach` loop that fills the flat
`responseHeaders` record. -/
def collectHeaders (hs : List (String × String)) : List (String × String) :=
  hs.foldl (fun m p => setHeader m p.1 p.2) []

/-- Model of `response.ok`: status in the inclusive range 200–299. -/
def responseOk (status : Nat) : Bool :=
  200 ≤ status && status ≤ 299

/-- `contentType && contentType.includes("application/json")` on the
response's `content-type` header. -/
def contentTypeIsJson (r : RawResponse) : Bool :=
  match headersGet r.headers "content-type" with
  | none => false
  | some ct => strIncludes ct "application/json"

/-- The body-decoding step shared by both adapters: parse as JSON when the
content type declares JSON (falling back to the raw text when parsing
throws), otherwise decode as plain text. -/
def decodeBody (r : RawResponse) : Body :=
  if contentTypeIsJson r then
    match r.jsonBody with
    | some j => Body.json j
    | none => Body.text r.textBody
  else Body.text r.textBody

/-- The response-normalization tail shared by both adapters: build the
envelope from the completed response and the resolved request URL. -/
def normalizeResponse (fullUrl : String) (r : RawResponse) : ResponseEnvelope :=
  if !responseOk r.status then
    { success := false
      status := r.status
      statusText := r.statusText
      url := fullUrl
      error := some (decodeBody r) }
  else
    { success := true
      status := r.status
      statusText := r.statusText
      url := fullUrl
      data := some (decodeBody r)
      headers := some (collectHeaders r.headers) }

/-- Parameter bag of `cmsContentDelivery` (`CmsContentDeliveryParameters`). -/
structure CmsContentDeliveryParameters where
  cmsUrl : String
  authToken : String
  operation : String
  contentReference : Option String := none
  contentGuid : Option String := none
  siteId : Option String := none
  contentUrl : Option String := none
  language : Option String := none
  expand : Option String := none
  select : Option String := none
  top : Option Int := none
deriving Repr

/-- The `switch (operation)` dispatch of `cmsContentDelivery`: returns the
operation's `apiPath` together with the operation-specific query parameters,
or the message of the synchronously thrown error. -/
def dispatchOperation (p : CmsContentDeliveryParameters) :
    Except String (String × List String) :=
  if p.operation = "get-all-sites" then
    Except.ok ("/api/episerver/v3.0/site", [])
  else if p.operation = "get-site-by-id" then
    if !strTruthy p.siteId then
      Except.error "siteId is required for get-site-by-id operation"
    else
      Except.ok ("/api/episerver/v3.0/site/" ++ p.siteId.getD "", [])
  else if p.operation = "get-content-by-reference" then
    if !strTruthy p.contentReference then
      Except.error "contentReference is required for get-content-by-reference operation"
    else
      Except.ok ("/api/episerver/v3.0/content/" ++ p.contentReference.getD "", [])
  else if p.operation = "get-content-by-guid" then
    if !strTruthy p.contentGuid then
      Except.error "contentGuid is required for get-content-by-guid operation"
    else
      Except.ok ("/api/episerver/v3.0/content/" ++ p.contentGuid.getD "", [])
  else if p.operation = "get-content-by-url" then
    if !strTruthy p.contentUrl then
      Except.error "contentUrl is required for get-content-by-url operation"
    else
      Except.ok ("/api/episerver/v3.0/content",
        ["contentUrl=" ++ encodeURIComponent (p.contentUrl.getD "")])
  else if p.operation = "get-children" then
    if !strTruthy p.contentReference && !strTruthy p.contentGuid then
      Except.error "Either contentReference or contentGuid is required for get-children operation"
    else
      let apiPath :=
        if strTruthy p.contentReference then
          "/api/episerver/v3.0/content/" ++ p.contentReference.getD "" ++ "/children"
        else
          "/api/episerver/v3.0/content/" ++ p.contentGuid.getD "" ++ "/children"
      let qps := if numTruthy p.top then ["top=" ++ intToDec (p.top.getD 0)] else []
      Except.ok (apiPath, qps)
  else
    Except.error ("Unknown operation: " ++ p.operation)

/-- The common query parameters appended after the dispatch:
`expand` then `select`, each only when truthy. -/
def commonQueryParams (p : CmsContentDeliveryParameters) : List String :=
  (if strTruthy p.expand then ["expand=" ++ encodeURIComponent (p.expand.getD "")] else []) ++
  (if strTruthy p.select then ["select=" ++ encodeURIComponent (p.select.getD "")] else [])

/-- Path and final query-parameter list of a `cmsContentDelivery` call, or
the synchronously thrown pre-flight error. -/
def deliveryPathAndQuery (p : CmsContentDeliveryParameters) :
    Except String (String × List String) :=
  match dispatchOperation p with
  | Except.error e => Except.error e
  | Except.ok (apiPath, qps) => Except.ok (apiPath, qps ++ commonQueryParams p)

/-- `${baseUrl}${apiPath}${queryParams.length > 0 ? '?' + queryParams.join('&') : ''}`. -/
def assembleUrl (base apiPath : String) (qps : List String) : String :=
  base ++ apiPath ++ (if 0 < qps.length then "?" ++ String.intercalate "&" qps else "")

/-- The fully resolved request URL of a `cmsContentDelivery` call, or the
synchronously thrown pre-flight error. -/
def buildDeliveryUrl (p : CmsContentDeliveryParameters) : Except String String :=
  match deliveryPathAndQuery p with
  | Except.error e => Except.error e
  | Except.ok (apiPath, qps) =>
      Except.ok (assembleUrl (stripTrailingSlash p.cmsUrl) apiPath qps)

/-- The `cmsContentDelivery` adapter. `fetchResult` is the oracle outcome of
the single `fetch` call (`Except.error` = transport failure with the given
message). The result pairs the adapter's outcome — `Except.error` for a
thrown error, `Except.ok` for a returned envelope — with the number of fetch
calls performed. -/
def cmsContentDelivery (p : CmsContentDeliveryParameters)
    (fetchResult : Except String RawResponse) :
    Except String ResponseEnvelope × Nat :=
  match buildDeliveryUrl p with
  | Except.error e => (Except.error e, 0)
  | Except.ok fullUrl =>
    match fetchResult with
    | Except.error msg =>
        (Except.error ("CMS Content Delivery API call failed: " ++ msg), 1)
    | Except.ok r => (Except.ok (normalizeResponse fullUrl r), 1)

/-- Parameter bag of `cmsContentManifest` (`CmsContentManifestParameters`). -/
structure CmsContentManifestParameters where
  cmsUrl : String
  authToken : Option String := none
  includeSystemTypes : Option Bool := none
deriving Repr

/-- The fully resolved request URL of a `cmsContentManifest` call. The
query parameter is appended exactly when `includeSystemTypes` is supplied
(`!== undefined`), rendering the boolean as `true`/`false`. -/
def buildManifestUrl (p : CmsContentManifestParameters) : String :=
  let baseUrl := stripTrailingSlash p.cmsUrl
  let apiPath := "/api/episerver/v3.0/contentmanifest"
  let apiPath :=
    match p.includeSystemTypes with
    | some b => apiPath ++ "?includeSystemTypes=" ++ (if b then "true" else "false")
    | none => apiPath
  baseUrl ++ apiPath

/-- The `cmsContentManifest` adapter, modelled like `cmsContentDelivery`. -/
def cmsContentManifest (p : CmsContentManifestParameters)
    (fetchResult : Except String RawResponse) :
    Except String ResponseEnvelope × Nat :=
  let fullUrl := buildManifestUrl p
  match fetchResult with
  | Except.error msg =>
      (Except.error ("CMS Content Manifest API call failed: " ++ msg), 1)
  | Except.ok r => (Except.ok (normalizeResponse fullUrl r), 1)

/-- The fixed set of known operation identifiers of `cmsContentDelivery`. -/
def knownOperations : List String :=
  ["get-all-sites", "get-site-by-id", "get-content-by-reference",
   "get-content-by-guid", "get-content-by-url", "get-children"]

end OpalCms

namespace OpalCms

/-- C1: for every completed HTTP response, the returned envelope has
`success = true` iff the status code is in [200, 299]; when `success` is
true the envelope contains `data` and no `error` field, when `success` is
false it contains `error` and no `data` field, and the fully resolved
request URL is included in the envelope in both cases. -/
theorem c1_envelope_shape (p : CmsContentDeliveryParameters) (u : String)
    (r : RawResponse) (h : buildDeliveryUrl p = Except.ok u) :
    ∃ e : ResponseEnvelope,
      cmsContentDelivery p (Except.ok r) = (Except.ok e, 1) ∧
      (e.success = true ↔ (200 ≤ r.status ∧ r.status ≤ 299)) ∧
      (e.success = true → e.data.isSome = true ∧ e.error = none) ∧
      (e.success = false → e.error.isSome = true ∧ e.data = none) ∧
      e.url = u := by
  refine ⟨normalizeResponse u r, by simp [cmsContentDelivery, h], ?_⟩
  unfold normalizeResponse responseOk
  by_cases hok : 200 ≤ r.status ∧ r.status ≤ 299
  · simp [hok]
  · rw [Decidable.not_and_iff_or_not] at hok
    rcases hok with hok | hok <;> simp [hok]

/-- Witness for C1 at a concrete 404 response. -/
theorem c1_envelope_shape_witness :
    ∃ e : ResponseEnvelope,
      cmsContentDelivery
        { cmsUrl := "https://host.example", authToken := "t",
          operation := "get-all-sites" }
        (Except.ok { status := 404, statusText := "Not Found", headers := [],
                     textBody := "nope", jsonBody := none }) = (Except.ok e, 1) ∧
      (e.success = true ↔ (200 ≤ 404 ∧ 404 ≤ 299)) ∧
      (e.success = true → e.data.isSome = true ∧ e.error = none) ∧
      (e.success = false → e.error.isSome = true ∧ e.data = none) ∧
      e.url = "https://host.example/api/episerver/v3.0/site" :=
  c1_envelope_shape _ _ _ rfl

end OpalCms

namespace OpalCms

/-- C2: an unknown operation identifier, or a known operation whose required
identifying parameter is not supplied, makes `cmsContentDelivery` throw
synchronously — the outcome is an error independent of the fetch oracle and
the fetch count is 0 — and for the unknown identifier `delete-content` the
message contains the literal text `Unknown operation: delete-content`. -/
theorem c2_preflight_validation (p : CmsContentDeliveryParameters)
    (fr : Except String RawResponse)
    (h : p.operation ∉ knownOperations ∨
         (p.operation = "get-site-by-id" ∧ p.siteId = none) ∨
         (p.operation = "get-content-by-reference" ∧ p.contentReference = none) ∨
         (p.operation = "get-content-by-guid" ∧ p.contentGuid = none) ∨
         (p.operation = "get-content-by-url" ∧ p.contentUrl = none) ∨
         (p.operation = "get-children" ∧ p.contentReference = none ∧
           p.contentGuid = none)) :
    ∃ msg, cmsContentDelivery p fr = (Except.error msg, 0) ∧
      (p.operation = "delete-content" →
        strIncludes msg "Unknown operation: delete-content" = true) := by
  rcases h with h | ⟨hop, h1⟩ | ⟨hop, h1⟩ | ⟨hop, h1⟩ | ⟨hop, h1⟩ | ⟨hop, h1, h2⟩
  · simp only [knownOperations, List.mem_cons, List.not_mem_nil, or_false] at h
    push_neg at h
    obtain ⟨h1, h2, h3, h4, h5, h6⟩ := h
    refine ⟨"Unknown operation: " ++ p.operation, ?_, ?_⟩
    · simp [cmsContentDelivery, buildDeliveryUrl, deliveryPathAndQuery,
        dispatchOperation, h1, h2, h3, h4, h5, h6]
    · intro hd
      rw [hd]
      decide
  · refine ⟨"siteId is required for get-site-by-id operation",
      by simp [cmsContentDelivery, buildDeliveryUrl, deliveryPathAndQuery,
        dispatchOperation, hop, h1, strTruthy],
      by intro hd; rw [hop] at hd; simp at hd⟩
  · refine ⟨"contentReference is required for get-content-by-reference operation",
      by simp [cmsContentDelivery, buildDeliveryUrl, deliveryPathAndQuery,
        dispatchOperation, hop, h1, strTruthy],
      by intro hd; rw [hop] at hd; simp at hd⟩
  · refine ⟨"contentGuid is required for get-content-by-guid operation",
      by simp [cmsContentDelivery, buildDeliveryUrl, deliveryPathAndQuery,
        dispatchOperation, hop, h1, strTruthy],
      by intro hd; rw [hop] at hd; simp at hd⟩
  · refine ⟨"contentUrl is required for get-content-by-url operation",
      by simp [cmsContentDelivery, buildDeliveryUrl, deliveryPathAndQuery,
        dispatchOperation, hop, h1, strTruthy],
      by intro hd; rw [hop] at hd; simp at hd⟩
  · refine ⟨"Either contentReference or contentGuid is required for get-children operation",
      by simp [cmsContentDelivery, buildDeliveryUrl, deliveryPathAndQuery,
        dispatchOperation, hop, h1, h2, strTruthy],
      by intro hd; rw [hop] at hd; simp at hd⟩

/-- Witness for C2 at the concrete unknown identifier `delete-content`,
with a fetch oracle that would report a transport failure. -/
theorem c2_preflight_validation_witness :
    ∃ msg, cmsContentDelivery
        { cmsUrl := "https://host.example", authToken := "t",
          operation := "delete-content" }
        (Except.error "unreachable") = (Except.error msg, 0) ∧
      ("delete-content" = "delete-content" →
        strIncludes msg "Unknown operation: delete-content" = true) :=
  c2_preflight_validation _ _ (Or.inl (by decide))

/-- C4: for `get-children` the dispatcher uses `contentReference` for the
path when it is truthy, otherwise `contentGuid` when truthy, otherwise
throws; the chosen parameter fills the `.../content/<id>/children` path
shape; concretely, `get-children` with `contentGuid = "abc-123"` and
`top = 10` resolves to
`https://host.example/api/episerver/v3.0/content/abc-123/children?top=10`. -/
theorem c4_get_children_dispatch (p : CmsContentDeliveryParameters)
    (h : p.operation = "get-children") :
    (strTruthy p.contentReference = true →
      dispatchOperation p = Except.ok
        ("/api/episerver/v3.0/content/" ++ p.contentReference.getD "" ++ "/children",
         if numTruthy p.top then ["top=" ++ intToDec (p.top.getD 0)] else [])) ∧
    (strTruthy p.contentReference = false → strTruthy p.contentGuid = true →
      dispatchOperation p = Except.ok
        ("/api/episerver/v3.0/content/" ++ p.contentGuid.getD "" ++ "/children",
         if numTruthy p.top then ["top=" ++ intToDec (p.top.getD 0)] else [])) ∧
    (strTruthy p.contentReference = false → strTruthy p.contentGuid = false →
      dispatchOperation p =
        Except.error "Either contentReference or contentGuid is required for get-children operation") ∧
    buildDeliveryUrl
        { cmsUrl := "https://host.example", authToken := "t",
          operation := "get-children", contentGuid := some "abc-123",
          top := some 10 } =
      Except.ok "https://host.example/api/episerver/v3.0/content/abc-123/children?top=10" := by
  refine ⟨?_, ?_, ?_, by rfl⟩ <;> intro h1 <;>
    simp [dispatchOperation, h, h1]

/-- Witness for C4 at the concrete `get-children` call of the scenario. -/
theorem c4_get_children_dispatch_witness :
    (strTruthy (some "r1") = true →
      dispatchOperation
        { cmsUrl := "c", authToken := "t", operation := "get-children",
          contentReference := some "r1" } = Except.ok
        ("/api/episerver/v3.0/content/" ++ (some "r1").getD "" ++ "/children",
         if numTruthy none then ["top=" ++ intToDec ((none : Option Int).getD 0)] else [])) ∧
    (strTruthy (some "r1") = false → strTruthy none = true →
      dispatchOperation
        { cmsUrl := "c", authToken := "t", operation := "get-children",
          contentReference := some "r1" } = Except.ok
        ("/api/episerver/v3.0/content/" ++ (none : Option String).getD "" ++ "/children",
         if numTruthy none then ["top=" ++ intToDec ((none : Option Int).getD 0)] else [])) ∧
    (strTruthy (some "r1") = false → strTruthy none = false →
      dispatchOperation
        { cmsUrl := "c", authToken := "t", operation := "get-children",
          contentReference := some "r1" } =
        Except.error "Either contentReference or contentGuid is required for get-children operation") ∧
    buildDeliveryUrl
        { cmsUrl := "https://host.example", authToken := "t",
          operation := "get-children", contentGuid := some "abc-123",
          top := some 10 } =
      Except.ok "https://host.example/api/episerver/v3.0/content/abc-123/children?top=10" :=
  c4_get_children_dispatch
    { cmsUrl := "c", authToken := "t", operation := "get-children",
      contentReference := some "r1" } rfl

/-- C10: parameter presence in `cmsContentDelivery` is JS truthiness, not
"was supplied": a supplied empty-string `siteId` / `contentReference` /
`contentGuid` / `contentUrl` triggers the missing-required-parameter error
(for `get-children`, an empty `contentReference` falls through to
`contentGuid`), and a supplied `top = 0` omits the `top` query parameter. -/
theorem c10_truthiness_presence (p : CmsContentDeliveryParameters) :
    (p.operation = "get-site-by-id" → p.siteId = some "" →
      dispatchOperation p =
        Except.error "siteId is required for get-site-by-id operation") ∧
    (p.operation = "get-content-by-reference" → p.contentReference = some "" →
      dispatchOperation p =
        Except.error "contentReference is required for get-content-by-reference operation") ∧
    (p.operation = "get-content-by-guid" → p.contentGuid = some "" →
      dispatchOperation p =
        Except.error "contentGuid is required for get-content-by-guid operation") ∧
    (p.operation = "get-content-by-url" → p.contentUrl = some "" →
      dispatchOperation p =
        Except.error "contentUrl is required for get-content-by-url operation") ∧
    (p.operation = "get-children" → p.contentReference = some "" →
      strTruthy p.contentGuid = true →
      dispatchOperation p = Except.ok
        ("/api/episerver/v3.0/content/" ++ p.contentGuid.getD "" ++ "/children",
         if numTruthy p.top then ["top=" ++ intToDec (p.top.getD 0)] else [])) ∧
    (p.operation = "get-children" → strTruthy p.contentReference = true →
      p.top = some 0 →
      dispatchOperation p = Except.ok
        ("/api/episerver/v3.0/content/" ++ p.contentReference.getD "" ++ "/children", [])) := by
  have hse : strTruthy (some "") = false := by decide
  refine ⟨?_, ?_, ?_, ?_, ?_, ?_⟩
  · intro h1 h2
    simp [dispatchOperation, h1, h2, hse]
  · intro h1 h2
    simp [dispatchOperation, h1, h2, hse]
  · intro h1 h2
    simp [dispatchOperation, h1, h2, hse]
  · intro h1 h2
    simp [dispatchOperation, h1, h2, hse]
  · intro h1 h2 h3
    simp [dispatchOperation, h1, h2, h3, hse]
  · intro h1 h2 h3
    simp [dispatchOperation, h1, h2, h3, numTruthy]

/-- Witness for C10: concrete empty-string and zero parameters. -/
theorem c10_truthiness_presence_witness :
    ("get-children" = "get-site-by-id" → (none : Option String) = some "" →
      dispatchOperation
        { cmsUrl := "c", authToken := "t", operation := "get-children",
          contentReference := some "", contentGuid := some "g", top := some 0 } =
        Except.error "siteId is required for get-site-by-id operation") ∧
    ("get-children" = "get-content-by-reference" → some "" = some "" →
      dispatchOperation
        { cmsUrl := "c", authToken := "t", operation := "get-children",
          contentReference := some "", contentGuid := some "g", top := some 0 } =
        Except.error "contentReference is required for get-content-by-reference operation") ∧
    ("get-children" = "get-content-by-guid" → some "g" = some "" →
      dispatchOperation
        { cmsUrl := "c", authToken := "t", operation := "get-children",
          contentReference := some "", contentGuid := some "g", top := some 0 } =
        Except.error "contentGuid is required for get-content-by-guid operation") ∧
    ("get-children" = "get-content-by-url" → (none : Option String) = some "" →
      dispatchOperation
        { cmsUrl := "c", authToken := "t", operation := "get-children",
          contentReference := some "", contentGuid := some "g", top := some 0 } =
        Except.error "contentUrl is required for get-content-by-url operation") ∧
    ("get-children" = "get-children" → some "" = some "" →
      strTruthy (some "g") = true →
      dispatchOperation
        { cmsUrl := "c", authToken := "t", operation := "get-children",
          contentReference := some "", contentGuid := some "g", top := some 0 } =
        Except.ok
        ("/api/episerver/v3.0/content/" ++ (some "g").getD "" ++ "/children",
         if numTruthy (some 0) then ["top=" ++ intToDec ((some 0 : Option Int).getD 0)] else [])) ∧
    ("get-children" = "get-children" → strTruthy (some "") = true →
      (some 0 : Option Int) = some 0 →
      dispatchOperation
        { cmsUrl := "c", authToken := "t", operation := "get-children",
          contentReference := some "", contentGuid := some "g", top := some 0 } =
        Except.ok
        ("/api/episerver/v3.0/content/" ++ (some "").getD "" ++ "/children", [])) :=
  c10_truthiness_presence
    { cmsUrl := "c", authToken := "t", operation := "get-children",
      contentReference := some "", contentGuid := some "g", top := some 0 }

/-- First-match association lookup on the flat header record. -/
def assocFind : List (String × String) → String → Option String
  | [], _ => none
  | (k0, v0) :: rest, k => if k0 == k then some v0 else assocFind rest k

/-- The value of the last occurrence of name `k` in a header list. -/
def lastValue (hs : List (String × String)) (k : String) : Option String :=
  assocFind hs.reverse k

theorem assocFind_overwrite_ne (m : List (String × String)) (k v k' : String)
    (hne : k ≠ k') :
    assocFind (m.map (fun p => if p.1 == k then (p.1, v) else p)) k' =
      assocFind m k' := by
  induction m with
  | nil => rfl
  | cons a t ih =>
    obtain ⟨k0, v0⟩ := a
    simp only [List.map_cons]
    cases hk : (k0 == k) with
    | true =>
      have hk2 : k0 = k := beq_iff_eq.mp hk
      have hne0 : (k0 == k') = false := beq_eq_false_iff_ne.mpr (hk2 ▸ hne)
      simp only [assocFind, hk, eq_self_iff_true, if_true, hne0,
        Bool.false_eq_true, if_false]
      exact ih
    | false =>
      simp only [assocFind, hk, Bool.false_eq_true, if_false]
      cases h0 : (k0 == k') with
      | true => simp only [h0, eq_self_iff_true, if_true]
      | false =>
        simp only [h0, Bool.false_eq_true, if_false]
        exact ih

theorem assocFind_append_ne (m : List (String × String)) (k v k' : String)
    (hne : k ≠ k') :
    assocFind (m ++ [(k, v)]) k' = assocFind m k' := by
  induction m with
  | nil =>
    simp only [List.nil_append, assocFind, beq_eq_false_iff_ne.mpr hne,
      Bool.false_eq_true, if_false]
  | cons a t ih =>
    obtain ⟨k0, v0⟩ := a
    simp only [List.cons_append, assocFind]
    cases h0 : (k0 == k') with
    | true => simp only [eq_self_iff_true, if_true]
    | false =>
      simp only [Bool.false_eq_true, if_false]
      exact ih

theorem assocFind_overwrite_self (m : List (String × String)) (k v : String)
    (h : m.any (fun p => p.1 == k) = true) :
    assocFind (m.map (fun p => if p.1 == k then (p.1, v) else p)) k = some v := by
  induction m with
  | nil => simp at h
  | cons a t ih =>
    obtain ⟨k0, v0⟩ := a
    simp only [List.map_cons]
    cases hk : (k0 == k) with
    | true =>
      simp only [assocFind, hk, eq_self_iff_true, if_true]
    | false =>
      rw [List.any_cons] at h
      simp only [hk, Bool.false_or] at h
      simp only [assocFind, hk, Bool.false_eq_true, if_false]
      exact ih h
  
theorem assocFind_append_self (m : List (String × String)) (k v : String)
    (h : m.any (fun p => p.1 == k) = false) :
    assocFind (m ++ [(k, v)]) k = some v := by
  induction m with
  | nil => simp [assocFind]
  | cons a t ih =>
    obtain ⟨k0, v0⟩ := a
    rw [List.any_cons] at h
    rw [Bool.or_eq_false_iff] at h
    simp only [List.cons_append, assocFind, h.1, Bool.false_eq_true, if_false]
    exact ih h.2

theorem assocFind_setHeader_self (m : List (String × String)) (k v : String) :
    assocFind (setHeader m k v) k = some v := by
  unfold setHeader
  by_cases h : m.any (fun p => p.1 == k) = true
  · rw [if_pos h]
    exact assocFind_overwrite_self m k v h
  · rw [if_neg h]
    exact assocFind_append_self m k v (Bool.eq_false_iff.mpr h)

theorem assocFind_setHeader_ne (m : List (String × String)) (k v k' : String)
    (hne : k ≠ k') :
    assocFind (setHeader m k v) k' = assocFind m k' := by
  unfold setHeader
  by_cases h : m.any (fun p => p.1 == k) = true
  · rw [if_pos h]
    exact assocFind_overwrite_ne m k v k' hne
  · rw [if_neg h]
    exact assocFind_append_ne m k v k' hne

/-- The flat header record built by the `forEach` loop realizes
last-value-wins semantics: looking a name up in it returns the value of the
last occurrence of that name in the iterated header list. -/
theorem assocFind_collectHeaders (hs : List (String × String)) (k : String) :
    assocFind (collectHeaders hs) k = lastValue hs k := by
  induction hs using List.reverseRecOn with
  | nil => rfl
  | append_singleton t a ih =>
    obtain ⟨k0, v0⟩ := a
    have hc : collectHeaders (t ++ [(k0, v0)]) =
        setHeader (collectHeaders t) k0 v0 := by
      unfold collectHeaders
      rw [List.foldl_append]
      rfl
    rw [hc]
    unfold lastValue
    rw [List.reverse_append]
    simp only [List.reverse_cons, List.reverse_nil, List.nil_append,
      List.singleton_append]
    cases hk : (k0 == k) with
    | true =>
      have hk2 : k0 = k := beq_iff_eq.mp hk
      subst hk2
      rw [assocFind_setHeader_self]
      simp only [assocFind, eq_self_iff_true, if_true, BEq.refl]
    | false =>
      have hk2 : k0 ≠ k := by
        intro hc2
        rw [hc2] at hk
        simp at hk
      rw [assocFind_setHeader_ne _ _ _ _ hk2]
      rw [ih]
      unfold lastValue
      simp only [assocFind, hk, Bool.false_eq_true, if_false]

theorem isPrefixOf_append_self (l m : List Char) : l.isPrefixOf (l ++ m) = true := by
  induction l with
  | nil => simp [List.isPrefixOf]
  | cons c t ih => simp [List.isPrefixOf, ih]

theorem isPrefixOf_self (l : List Char) : l.isPrefixOf l = true := by
  have h := isPrefixOf_append_self l []
  rwa [List.append_nil] at h

theorem charsInfix_append_self (pre l : List Char) :
    charsInfix l (pre ++ l) = true := by
  induction pre with
  | nil =>
    cases l with
    | nil => rfl
    | cons c t => simp [charsInfix, isPrefixOf_self]
  | cons c pre ih => simp [charsInfix, ih]

theorem strStartsWith_append_self (a b : String) :
    strStartsWith (a ++ b) a = true := by
  unfold strStartsWith
  rw [String.data_append]
  exact isPrefixOf_append_self a.data b.data

theorem strIncludes_append_self (a b : String) :
    strIncludes (a ++ b) b = true := by
  unfold strIncludes
  rw [String.data_append]
  exact charsInfix_append_self a.data b.data

/-- C5: for every response whose content-type header indicates JSON, the
parsed JSON structure becomes the decoded body (which the envelope exposes
as `data` on success and as `error` on failure); if JSON parsing fails the
raw text body is used instead, and decoding is total — it never throws past
the normalizer; a response whose content-type does not indicate JSON is
decoded as plain text unconditionally. -/
theorem c5_body_decoding (r : RawResponse) (u : String) :
    (contentTypeIsJson r = true →
      (∀ j, r.jsonBody = some j → decodeBody r = Body.json j) ∧
      (r.jsonBody = none → decodeBody r = Body.text r.textBody)) ∧
    (contentTypeIsJson r = false → decodeBody r = Body.text r.textBody) ∧
    ((normalizeResponse u r).success = true →
      (normalizeResponse u r).data = some (decodeBody r)) ∧
    ((normalizeResponse u r).success = false →
      (normalizeResponse u r).error = some (decodeBody r)) := by
  refine ⟨?_, ?_, ?_, ?_⟩
  · intro hct
    exact ⟨fun j hj => by simp [decodeBody, hct, hj],
           fun hj => by simp [decodeBody, hct, hj]⟩
  · intro hct
    simp [decodeBody, hct]
  · intro hs
    by_cases hok : responseOk r.status = true
    · simp [normalizeResponse, hok]
    · simp [normalizeResponse, Bool.eq_false_iff.mpr hok] at hs
  · intro hs
    by_cases hok : responseOk r.status = true
    · simp [normalizeResponse, hok] at hs
    · simp [normalizeResponse, Bool.eq_false_iff.mpr hok]

/-- Witness for C5: a declared-JSON response whose body fails to parse is
decoded as the raw text. -/
theorem c5_body_decoding_witness :
    contentTypeIsJson
      { status := 200, statusText := "OK",
        headers := [("content-type", "application/json")],
        textBody := "not json", jsonBody := none } = true →
      (∀ j, (none : Option JsonVal) = some j →
        decodeBody
          { status := 200, statusText := "OK",
            headers := [("content-type", "application/json")],
            textBody := "not json", jsonBody := none } = Body.json j) ∧
      ((none : Option JsonVal) = none →
        decodeBody
          { status := 200, statusText := "OK",
            headers := [("content-type", "application/json")],
            textBody := "not json", jsonBody := none } = Body.text "not json") :=
  (c5_body_decoding
    { status := 200, statusText := "OK",
      headers := [("content-type", "application/json")],
      textBody := "not json", jsonBody := none } "u").1

/-- C8: the success envelope contains the flat name-to-value mapping of all
response headers with last-value-wins semantics, while every failure
envelope omits the headers mapping; `normalizeResponse` is exactly the
envelope constructor of both adapters. -/
theorem c8_headers_asymmetry (u : String) (r : RawResponse)
    (pm : CmsContentManifestParameters) :
    ((normalizeResponse u r).success = true →
      (normalizeResponse u r).headers = some (collectHeaders r.headers) ∧
      ∀ k, assocFind (collectHeaders r.headers) k = lastValue r.headers k) ∧
    ((normalizeResponse u r).success = false →
      (normalizeResponse u r).headers = none) ∧
    (cmsContentManifest pm (Except.ok r)).1 =
      Except.ok (normalizeResponse (buildManifestUrl pm) r) := by
  refine ⟨?_, ?_, rfl⟩
  · intro hs
    by_cases hok : responseOk r.status = true
    · exact ⟨by simp [normalizeResponse, hok],
        fun k => assocFind_collectHeaders r.headers k⟩
    · simp [normalizeResponse, Bool.eq_false_iff.mpr hok] at hs
  · intro hs
    by_cases hok : responseOk r.status = true
    · simp [normalizeResponse, hok] at hs
    · simp [normalizeResponse, Bool.eq_false_iff.mpr hok]

/-- Witness for C8: a 200 response with a repeated header name keeps the
last value, and a 500 response omits the mapping. -/
theorem c8_headers_asymmetry_witness :
    ((normalizeResponse "u"
        { status := 200, statusText := "OK",
          headers := [("x-a", "1"), ("x-b", "2"), ("x-a", "3")],
          textBody := "", jsonBody := none }).success = true →
      (normalizeResponse "u"
        { status := 200, statusText := "OK",
          headers := [("x-a", "1"), ("x-b", "2"), ("x-a", "3")],
          textBody := "", jsonBody := none }).headers =
        some (collectHeaders [("x-a", "1"), ("x-b", "2"), ("x-a", "3")]) ∧
      ∀ k, assocFind (collectHeaders [("x-a", "1"), ("x-b", "2"), ("x-a", "3")]) k =
        lastValue [("x-a", "1"), ("x-b", "2"), ("x-a", "3")] k) ∧
    ((normalizeResponse "u"
        { status := 200, statusText := "OK",
          headers := [("x-a", "1"), ("x-b", "2"), ("x-a", "3")],
          textBody := "", jsonBody := none }).success = false →
      (normalizeResponse "u"
        { status := 200, statusText := "OK",
          headers := [("x-a", "1"), ("x-b", "2"), ("x-a", "3")],
          textBody := "", jsonBody := none }).headers = none) ∧
    (cmsContentManifest { cmsUrl := "https://x" }
      (Except.ok
        { status := 200, statusText := "OK",
          headers := [("x-a", "1"), ("x-b", "2"), ("x-a", "3")],
          textBody := "", jsonBody := none })).1 =
      Except.ok (normalizeResponse (buildManifestUrl { cmsUrl := "https://x" })
        { status := 200, statusText := "OK",
          headers := [("x-a", "1"), ("x-b", "2"), ("x-a", "3")],
          textBody := "", jsonBody := none }) :=
  c8_headers_asymmetry "u"
    { status := 200, statusText := "OK",
      headers := [("x-a", "1"), ("x-b", "2"), ("x-a", "3")],
      textBody := "", jsonBody := none }
    { cmsUrl := "https://x" }

/-- C9: a transport failure during the fetch is re-raised as a single
wrapped error whose message is the fixed adapter-identifying label followed
by the original failure message — so it starts with the label and contains
the original message — for both adapters. -/
theorem c9_transport_error_wrapping (p : CmsContentDeliveryParameters)
    (u msg : String) (pm : CmsContentManifestParameters)
    (h : buildDeliveryUrl p = Except.ok u) :
    cmsContentDelivery p (Except.error msg) =
      (Except.error ("CMS Content Delivery API call failed: " ++ msg), 1) ∧
    strStartsWith ("CMS Content Delivery API call failed: " ++ msg)
      "CMS Content Delivery API call failed: " = true ∧
    strIncludes ("CMS Content Delivery API call failed: " ++ msg) msg = true ∧
    cmsContentManifest pm (Except.error msg) =
      (Except.error ("CMS Content Manifest API call failed: " ++ msg), 1) ∧
    strStartsWith ("CMS Content Manifest API call failed: " ++ msg)
      "CMS Content Manifest API call failed: " = true ∧
    strIncludes ("CMS Content Manifest API call failed: " ++ msg) msg = true := by
  refine ⟨by simp [cmsContentDelivery, h], strStartsWith_append_self _ _,
    strIncludes_append_self _ _, rfl, strStartsWith_append_self _ _,
    strIncludes_append_self _ _⟩

/-- Witness for C9 at a concrete DNS-style failure message. -/
theorem c9_transport_error_wrapping_witness :
    cmsContentDelivery
      { cmsUrl := "https://host.example", authToken := "t",
        operation := "get-all-sites" }
      (Except.error "getaddrinfo ENOTFOUND host.example") =
      (Except.error ("CMS Content Delivery API call failed: " ++
        "getaddrinfo ENOTFOUND host.example"), 1) ∧
    strStartsWith ("CMS Content Delivery API call failed: " ++
        "getaddrinfo ENOTFOUND host.example")
      "CMS Content Delivery API call failed: " = true ∧
    strIncludes ("CMS Content Delivery API call failed: " ++
        "getaddrinfo ENOTFOUND host.example")
      "getaddrinfo ENOTFOUND host.example" = true ∧
    cmsContentManifest { cmsUrl := "https://host.example" }
      (Except.error "getaddrinfo ENOTFOUND host.example") =
      (Except.error ("CMS Content Manifest API call failed: " ++
        "getaddrinfo ENOTFOUND host.example"), 1) ∧
    strStartsWith ("CMS Content Manifest API call failed: " ++
        "getaddrinfo ENOTFOUND host.example")
      "CMS Content Manifest API call failed: " = true ∧
    strIncludes ("CMS Content Manifest API call failed: " ++
        "getaddrinfo ENOTFOUND host.example")
      "getaddrinfo ENOTFOUND host.example" = true :=
  c9_transport_error_wrapping
    { cmsUrl := "https://host.example", authToken := "t",
      operation := "get-all-sites" }
    "https://host.example/api/episerver/v3.0/site"
    "getaddrinfo ENOTFOUND host.example"
    { cmsUrl := "https://host.example" } rfl

theorem stripTrailingSlash_of_no_slash (u : String)
    (hu : endsWithSlash u = false) : stripTrailingSlash u = u := by
  unfold stripTrailingSlash
  rw [if_neg]
  intro hc
  unfold endsWithSlash at hu
  rw [hc] at hu
  simp at hu

theorem stripTrailingSlash_concat_slash (u : String) :
    stripTrailingSlash (u ++ "/") = u := by
  unfold stripTrailingSlash
  have hd : (u ++ "/").data = u.data ++ ['/'] := by rw [String.data_append]
  rw [hd, List.getLast?_concat, if_pos rfl, List.dropLast_concat]

theorem strStartsWith_slash_false_of_head (t suffix : String)
    (ht : t.data.head? = some 'a') :
    strStartsWith (t ++ suffix) "/" = false := by
  unfold strStartsWith
  rw [String.data_append]
  cases hd : t.data with
  | nil =>
    rw [hd] at ht
    exact absurd ht (by simp)
  | cons d u =>
    rw [hd] at ht
    have hda : d = 'a' := by
      simpa using ht
    subst hda
    have hsd : ("/" : String).data = ['/'] := rfl
    rw [hsd]
    simp [List.isPrefixOf]

/-- Every path produced by the operation dispatch starts with exactly one
slash: it is `"/" ++ t` where `t` starts with the letter `a` (of `api`). -/
theorem dispatch_path_shape (p : CmsContentDeliveryParameters)
    (apiPath : String) (qps : List String)
    (h : dispatchOperation p = Except.ok (apiPath, qps)) :
    ∃ t : String, apiPath = "/" ++ t ∧ t.data.head? = some 'a' := by
  unfold dispatchOperation at h
  split_ifs at h <;>
    · simp only [Except.ok.injEq, Prod.mk.injEq] at h
      obtain ⟨hpath, hq⟩ := h
      subst hpath
      first
       | exact ⟨"api/episerver/v3.0/site", rfl, rfl⟩
       | exact ⟨"api/episerver/v3.0/site/" ++ p.siteId.getD "", rfl, rfl⟩
       | exact ⟨"api/episerver/v3.0/content/" ++ p.contentReference.getD "", rfl, rfl⟩
       | exact ⟨"api/episerver/v3.0/content/" ++ p.contentGuid.getD "", rfl, rfl⟩
       | exact ⟨"api/episerver/v3.0/content", rfl, rfl⟩
       | exact ⟨"api/episerver/v3.0/content/" ++ p.contentReference.getD "" ++ "/children", rfl, rfl⟩
       | exact ⟨"api/episerver/v3.0/content/" ++ p.contentGuid.getD "" ++ "/children", rfl, rfl⟩

theorem pathAndQuery_path_shape (p : CmsContentDeliveryParameters)
    (apiPath : String) (qps : List String)
    (h : deliveryPathAndQuery p = Except.ok (apiPath, qps)) :
    ∃ t : String, apiPath = "/" ++ t ∧ t.data.head? = some 'a' := by
  unfold deliveryPathAndQuery at h
  cases hd : dispatchOperation p with
  | error e =>
    rw [hd] at h
    simp at h
  | ok pr =>
    obtain ⟨path0, qps0⟩ := pr
    rw [hd] at h
    simp only [Except.ok.injEq, Prod.mk.injEq] at h
    obtain ⟨hpath, hq⟩ := h
    subst hpath
    exact dispatch_path_shape p path0 qps0 hd

theorem deliveryPathAndQuery_cmsUrl_irrelevant (p : CmsContentDeliveryParameters)
    (x : String) :
    deliveryPathAndQuery { p with cmsUrl := x } = deliveryPathAndQuery p := rfl

/-- C3: exactly one trailing slash is stripped from the base URL when
present (the rest of the string is kept unaltered), resolution is identical
for a base with or without the trailing slash, the resolved URL has exactly
one slash between origin and path, and `get-content-by-reference` with
`contentReference = "5"` on base `https://host.example` resolves to
`https://host.example/api/episerver/v3.0/content/5`. -/
theorem c3_base_url_normalization (s u : String)
    (p : CmsContentDeliveryParameters) (hu : endsWithSlash u = false) :
    (endsWithSlash s = true → stripTrailingSlash s = String.mk s.data.dropLast) ∧
    (endsWithSlash s = false → stripTrailingSlash s = s) ∧
    stripTrailingSlash (u ++ "/") = u ∧
    (∀ r, buildDeliveryUrl { p with cmsUrl := u } = Except.ok r →
      buildDeliveryUrl { p with cmsUrl := u ++ "/" } = Except.ok r ∧
      ∃ rest, r = u ++ "/" ++ rest ∧ strStartsWith rest "/" = false) ∧
    buildDeliveryUrl
      { cmsUrl := "https://host.example", authToken := "t",
        operation := "get-content-by-reference", contentReference := some "5" } =
      Except.ok "https://host.example/api/episerver/v3.0/content/5" := by
  refine ⟨?_, ?_, stripTrailingSlash_concat_slash u, ?_, rfl⟩
  · intro hs
    unfold endsWithSlash at hs
    rw [beq_iff_eq] at hs
    unfold stripTrailingSlash
    rw [if_pos hs]
  · intro hs
    exact stripTrailingSlash_of_no_slash s hs
  · intro r hr
    have hq1 : deliveryPathAndQuery { p with cmsUrl := u } =
        deliveryPathAndQuery p := deliveryPathAndQuery_cmsUrl_irrelevant p u
    have hq2 : deliveryPathAndQuery { p with cmsUrl := u ++ "/" } =
        deliveryPathAndQuery p := deliveryPathAndQuery_cmsUrl_irrelevant p (u ++ "/")
    have hsu : stripTrailingSlash u = u := stripTrailingSlash_of_no_slash u hu
    cases hd : deliveryPathAndQuery p with
    | error e =>
      unfold buildDeliveryUrl at hr
      rw [hq1, hd] at hr
      simp at hr
    | ok pr =>
      obtain ⟨path0, qps0⟩ := pr
      unfold buildDeliveryUrl at hr
      rw [hq1, hd] at hr
      simp only [Except.ok.injEq] at hr
      have hr2 : assembleUrl u path0 qps0 = r := by
        rw [← hr]
        unfold assembleUrl
        rw [hsu]
      constructor
      · unfold buildDeliveryUrl
        rw [hq2, hd]
        simp only [Except.ok.injEq]
        rw [← hr2]
        unfold assembleUrl
        rw [stripTrailingSlash_concat_slash u]
      · obtain ⟨t, hpt, hth⟩ := pathAndQuery_path_shape p path0 qps0 hd
        refine ⟨t ++ (if 0 < qps0.length
            then "?" ++ String.intercalate "&" qps0 else ""), ?_, ?_⟩
        · rw [← hr2]
          unfold assembleUrl
          rw [hpt]
          rw [← String.append_assoc u "/" t]
          rw [String.append_assoc (u ++ "/") t]
        · exact strStartsWith_slash_false_of_head t _ hth

/-- Witness for C3 at the concrete scenario base URL, also exercising the
trailing-slash variant of the base. -/
theorem c3_base_url_normalization_witness :
    buildDeliveryUrl
      { cmsUrl := "https://host.example" ++ "/", authToken := "t",
        operation := "get-content-by-reference", contentReference := some "5" } =
      Except.ok "https://host.example/api/episerver/v3.0/content/5" ∧
    ∃ rest, "https://host.example/api/episerver/v3.0/content/5" =
      "https://host.example" ++ "/" ++ rest ∧ strStartsWith rest "/" = false :=
  (c3_base_url_normalization "x/" "https://host.example"
    { cmsUrl := "https://host.example", authToken := "t",
      operation := "get-content-by-reference", contentReference := some "5" }
    (by decide)).2.2.2.1
    "https://host.example/api/episerver/v3.0/content/5" rfl

/-- The operation-specific query parameters produced by the dispatch are
empty, a single encoded `contentUrl`, or a single rendered `top`. -/
theorem dispatch_query_shape (p : CmsContentDeliveryParameters)
    (apiPath : String) (qps0 : List String)
    (h : dispatchOperation p = Except.ok (apiPath, qps0)) :
    qps0 = [] ∨
    (∃ v, qps0 = ["contentUrl=" ++ encodeURIComponent v]) ∨
    (∃ n, qps0 = ["top=" ++ intToDec n]) := by
  unfold dispatchOperation at h
  split_ifs at h <;>
    · simp only [Except.ok.injEq, Prod.mk.injEq] at h
      obtain ⟨hp, hq⟩ := h
      first
      | exact Or.inl hq.symm
      | exact Or.inl hq
      | exact Or.inr (Or.inl ⟨p.contentUrl.getD "", hq.symm⟩)
      | exact Or.inr (Or.inl ⟨p.contentUrl.getD "", hq⟩)
      | exact Or.inr (Or.inr ⟨p.top.getD 0, hq.symm⟩)

/-- C6: the final query-parameter list is always the operation-specific
parameters (`contentUrl` or `top`, at most one) followed by `expand` and
then `select`, each present only when truthy — declaration order, fixed by
the code independently of how the caller supplied the parameter bag. -/
theorem c6_query_param_order (p : CmsContentDeliveryParameters)
    (apiPath : String) (qps : List String)
    (h : deliveryPathAndQuery p = Except.ok (apiPath, qps)) :
    ∃ opq : List String,
      qps = opq ++
        ((if strTruthy p.expand
          then ["expand=" ++ encodeURIComponent (p.expand.getD "")] else []) ++
         (if strTruthy p.select
          then ["select=" ++ encodeURIComponent (p.select.getD "")] else [])) ∧
      (opq = [] ∨
       (∃ v, opq = ["contentUrl=" ++ encodeURIComponent v]) ∨
       (∃ n, opq = ["top=" ++ intToDec n])) := by
  unfold deliveryPathAndQuery at h
  cases hd : dispatchOperation p with
  | error e =>
    rw [hd] at h
    simp at h
  | ok pr =>
    obtain ⟨path0, qps0⟩ := pr
    rw [hd] at h
    simp only [Except.ok.injEq, Prod.mk.injEq] at h
    obtain ⟨hp, hq⟩ := h
    refine ⟨qps0, ?_, dispatch_query_shape p path0 qps0 hd⟩
    rw [← hq]
    unfold commonQueryParams
    rfl

/-- Witness for C6 at a concrete `get-children` call carrying `top`,
`expand` and `select`. -/
theorem c6_query_param_order_witness :
    ∃ opq : List String,
      ["top=" ++ intToDec 10, "expand=" ++ encodeURIComponent "blocks",
       "select=" ++ encodeURIComponent "name"] = opq ++
        ((if strTruthy (some "blocks")
          then ["expand=" ++ encodeURIComponent ((some "blocks").getD "")] else []) ++
         (if strTruthy (some "name")
          then ["select=" ++ encodeURIComponent ((some "name").getD "")] else [])) ∧
      (opq = [] ∨
       (∃ v, opq = ["contentUrl=" ++ encodeURIComponent v]) ∨
       (∃ n, opq = ["top=" ++ intToDec n])) :=
  c6_query_param_order
    { cmsUrl := "c", authToken := "t", operation := "get-children",
      contentReference := some "5", expand := some "blocks",
      select := some "name", top := some 10 }
    "/api/episerver/v3.0/content/5/children"
    ["top=" ++ intToDec 10, "expand=" ++ encodeURIComponent "blocks",
     "select=" ++ encodeURIComponent "name"] rfl

theorem digitChar_unreserved :
    ∀ k, k < 10 → isUnreservedChar (Char.ofNat (48 + k)) = true := by decide

theorem natToDecAux_unreserved (fuel : Nat) :
    ∀ n acc, (∀ c ∈ acc, isUnreservedChar c = true) →
      ∀ c ∈ natToDecAux fuel n acc, isUnreservedChar c = true := by
  induction fuel with
  | zero =>
    intro n acc hacc c hc
    exact hacc c hc
  | succ fuel ih =>
    intro n acc hacc c hc
    have hdig : isUnreservedChar (Char.ofNat (48 + n % 10)) = true :=
      digitChar_unreserved (n % 10) (Nat.mod_lt n (by decide))
    unfold natToDecAux at hc
    simp only [] at hc
    by_cases h : n < 10
    · rw [if_pos h] at hc
      rcases List.mem_cons.mp hc with rfl | hc2
      · exact hdig
      · exact hacc c hc2
    · rw [if_neg h] at hc
      refine ih (n / 10) _ ?_ c hc
      intro c2 hc2
      rcases List.mem_cons.mp hc2 with rfl | hc3
      · exact hdig
      · exact hacc c2 hc3

theorem natToDec_unreserved (n : Nat) :
    ∀ c ∈ natToDec n, isUnreservedChar c = true :=
  natToDecAux_unreserved (n + 1) n []
    (by intro c hc; exact absurd hc (List.not_mem_nil c))

theorem encodeList_unreserved (l : List Char)
    (h : ∀ c ∈ l, isUnreservedChar c = true) :
    (l.map encodeChar).flatten = l := by
  induction l with
  | nil => rfl
  | cons c t ih =>
    simp only [List.map_cons, List.flatten_cons]
    have hc : encodeChar c = [c] := by
      unfold encodeChar
      rw [if_pos (h c (List.mem_cons_self c t))]
    rw [hc, ih (fun c2 hc2 => h c2 (List.mem_cons_of_mem c hc2))]
    rfl

theorem encodeURIComponent_unreserved (s : String)
    (h : ∀ c ∈ s.data, isUnreservedChar c = true) :
    encodeURIComponent s = s := by
  unfold encodeURIComponent
  rw [encodeList_unreserved s.data h]

/-- The decimal rendering of an integer is a fixed point of
`encodeURIComponent`: the `top` value in the URL is its own encoding. -/
theorem encodeURIComponent_intToDec (t : Int) :
    encodeURIComponent (intToDec t) = intToDec t := by
  apply encodeURIComponent_unreserved
  intro c hc
  cases t with
  | ofNat n =>
    exact natToDec_unreserved n c hc
  | negSucc m =>
    rcases List.mem_cons.mp hc with rfl | hc2
    · decide
    · exact natToDec_unreserved (m + 1) c hc2

/-- C7: every query parameter in a resolved URL is `name=value` with the
value percent-encoded individually (the name taken from the fixed safe set),
parameters are joined with `&`, and the `?` separator is added exactly when
at least one query parameter exists — for the delivery adapter and, for its
single optional parameter, the manifest adapter. -/
theorem c7_query_encoding (p : CmsContentDeliveryParameters)
    (apiPath : String) (qps : List String)
    (pm : CmsContentManifestParameters)
    (h : deliveryPathAndQuery p = Except.ok (apiPath, qps)) :
    (∀ q ∈ qps, ∃ name v,
      (name = "contentUrl" ∨ name = "top" ∨ name = "expand" ∨ name = "select") ∧
      q = name ++ "=" ++ encodeURIComponent v) ∧
    (qps = [] →
      buildDeliveryUrl p = Except.ok (stripTrailingSlash p.cmsUrl ++ apiPath)) ∧
    (qps ≠ [] →
      buildDeliveryUrl p = Except.ok (stripTrailingSlash p.cmsUrl ++ apiPath ++
        ("?" ++ String.intercalate "&" qps))) ∧
    (pm.includeSystemTypes = none →
      buildManifestUrl pm =
        stripTrailingSlash pm.cmsUrl ++ "/api/episerver/v3.0/contentmanifest") ∧
    (∀ b, pm.includeSystemTypes = some b →
      buildManifestUrl pm = stripTrailingSlash pm.cmsUrl ++
        ("/api/episerver/v3.0/contentmanifest?includeSystemTypes=" ++
          encodeURIComponent (if b then "true" else "false"))) := by
  refine ⟨?_, ?_, ?_, ?_, ?_⟩
  · intro q hq
    unfold deliveryPathAndQuery at h
    cases hd : dispatchOperation p with
    | error e =>
      rw [hd] at h
      simp at h
    | ok pr =>
      obtain ⟨path0, qps0⟩ := pr
      rw [hd] at h
      simp only [Except.ok.injEq, Prod.mk.injEq] at h
      obtain ⟨hp, hqq⟩ := h
      rw [← hqq] at hq
      rcases List.mem_append.mp hq with hql | hqr
      · rcases dispatch_query_shape p path0 qps0 hd with h0 | ⟨v, h0⟩ | ⟨n, h0⟩
        · subst h0
          exact absurd hql (List.not_mem_nil q)
        · subst h0
          have hqv := List.mem_singleton.mp hql
          subst hqv
          exact ⟨"contentUrl", v, Or.inl rfl, rfl⟩
        · subst h0
          have hqv := List.mem_singleton.mp hql
          subst hqv
          refine ⟨"top", intToDec n, Or.inr (Or.inl rfl), ?_⟩
          rw [encodeURIComponent_intToDec n]
          rfl
      · unfold commonQueryParams at hqr
        rcases List.mem_append.mp hqr with hqe | hqs
        · by_cases he : strTruthy p.expand = true
          · rw [if_pos he] at hqe
            have hqv := List.mem_singleton.mp hqe
            subst hqv
            exact ⟨"expand", p.expand.getD "", Or.inr (Or.inr (Or.inl rfl)), rfl⟩
          · rw [if_neg he] at hqe
            exact absurd hqe (List.not_mem_nil q)
        · by_cases hs : strTruthy p.select = true
          · rw [if_pos hs] at hqs
            have hqv := List.mem_singleton.mp hqs
            subst hqv
            exact ⟨"select", p.select.getD "", Or.inr (Or.inr (Or.inr rfl)), rfl⟩
          · rw [if_neg hs] at hqs
            exact absurd hqs (List.not_mem_nil q)
  · intro hnil
    subst hnil
    unfold buildDeliveryUrl
    rw [h]
    unfold assembleUrl
    simp
  · intro hne
    unfold buildDeliveryUrl
    rw [h]
    simp only [Except.ok.injEq]
    unfold assembleUrl
    rw [if_pos (List.length_pos.mpr hne)]
  · intro h2
    unfold buildManifestUrl
    rw [h2]
  · intro b h2
    unfold buildManifestUrl
    rw [h2]
    cases b with
    | false =>
      rw [show encodeURIComponent (if false then "true" else "false") = "false"
        from by decide]
      rfl
    | true =>
      rw [show encodeURIComponent (if true then "true" else "false") = "true"
        from by decide]
      rfl

/-- Witness for C7: a `get-content-by-url` call whose value needs escaping,
and a manifest call with `includeSystemTypes = false`. -/
theorem c7_query_encoding_witness :
    buildDeliveryUrl
      { cmsUrl := "https://host.example", authToken := "t",
        operation := "get-content-by-url", contentUrl := some "https://a b" } =
      Except.ok (stripTrailingSlash "https://host.example" ++
        "/api/episerver/v3.0/content" ++
        ("?" ++ String.intercalate "&"
          ["contentUrl=" ++ encodeURIComponent "https://a b"])) ∧
    buildManifestUrl { cmsUrl := "https://x", includeSystemTypes := some false } =
      stripTrailingSlash "https://x" ++
        ("/api/episerver/v3.0/contentmanifest?includeSystemTypes=" ++
          encodeURIComponent (if false then "true" else "false")) := by
  have h := c7_query_encoding
    { cmsUrl := "https://host.example", authToken := "t",
      operation := "get-content-by-url", contentUrl := some "https://a b" }
    "/api/episerver/v3.0/content"
    ["contentUrl=" ++ encodeURIComponent "https://a b"]
    { cmsUrl := "https://x", includeSystemTypes := some false } rfl
  exact ⟨h.2.2.1 (by simp), h.2.2.2.2 false rfl⟩

end OpalCms

